import Mathlib

/-!
Verification of the autopkgd recipe-processing pipeline.

The Go sources (`main.go`, `slack.go` and its later variant) are embedded
shallowly:

* plist values (`map[string]interface{}` rows) become the tagged union
  `PValue`; Go's unchecked type assertion `v.(string)` becomes `asString`,
  whose `none` outcome marks the run-time panic of a failed assertion.
* `runAutopkg` / `readReportPlist` become pure functions over an explicit
  environment (`ExecEnv`) recording the outcomes of the external effects
  (tool exit status, report-file open, plist decode); the list of
  `ExecAction`s records which external operations were attempted.
* `notifySlack` (the variant linked by `main.go`, which logs and returns on
  a failed post) becomes `notifySlackRun`, driven by an oracle
  `resp : Nat → Bool` giving the success of the i-th webhook POST.
* the concurrent `process` function becomes a small-step transition system
  (`Step`, `Reachable`): one constructor per atomic action of each
  goroutine (recipe reader, dispatch loop, workers, aggregator, notifier,
  channel-closing goroutine), with unbuffered-channel sends modelled as
  rendezvous steps and the `sem` channel as a counter bounded by its
  capacity.  A send on a closed channel sets `panicked` (Go panics there)
  and freezes the system.
-/

namespace Autopkgd

/-- Tagged union for the untyped plist values stored in report data rows
(Go `interface{}`). -/
inductive PValue where
  | str (s : String)
  | num (n : Int)
  | boolean (b : Bool)
  | null
deriving DecidableEq, Repr

/-- One data row of a processor summary: Go `map[string]interface{}`,
modelled as an association list. -/
abbrev Row := List (String × PValue)

/-- Go type assertion `v.(string)` on a value read from a row: `none` means
the assertion panics (missing key, i.e. nil interface, or a non-string). -/
def asString : Option PValue → Option String
  | some (PValue.str s) => some s
  | _ => none

/-- Go `path/filepath.Base` for unix paths, as used on download paths. -/
def filepathBase (path : String) : String :=
  if path = "" then "."
  else
    let trimmed := (path.data.reverse.dropWhile (fun c => c = '/')).reverse
    let name := (trimmed.reverse.takeWhile (fun c => c ≠ '/')).reverse
    if name = [] then "/" else String.mk name

/-- `processor` from main.go: one summary block of an autopkg report. -/
structure processor where
  DataRows : List Row
  Header : List String
  SummaryText : String
deriving DecidableEq, Repr

/-- `autopkgReport` from main.go; `SummaryResults` is the Go map from
result-kind name to processor summary, as an association list. -/
structure autopkgReport where
  Failures : List PValue
  SummaryResults : List (String × processor)
deriving DecidableEq, Repr

/-- The empty report `autopkgReport{}` returned on any per-recipe failure. -/
def emptyReport : autopkgReport := { Failures := [], SummaryResults := [] }

/-! ## Recipe source (main.go lines 111-130) -/

/-- The skip test of the recipe-reading loop:
`len(recipe) == 0 || recipe == "MakeCatalogs.munki" || recipe[0] == '#'`.
(The Go code compares the first byte with `'#'`; since `'#'` is ASCII the
first byte equals `'#'` exactly when the first character does.) -/
def skipLine (recipe : String) : Bool :=
  recipe.length == 0 || recipe == "MakeCatalogs.munki" ||
    recipe.data.head? == some '#'

/-- The sequence of recipes sent on the `recipes` channel, in file order:
the scanner loop with its `continue` on `skipLine`. -/
def recipesFromLines : List String → List String
  | [] => []
  | l :: ls => if skipLine l then recipesFromLines ls else l :: recipesFromLines ls

/-- The spec's description of a kept line: non-empty, not the reserved
sentinel, and not starting with the comment marker. -/
def specKeep (l : String) : Bool :=
  !(l == "") && !(l == "MakeCatalogs.munki") && !(l.data.head? == some '#')

theorem string_length_beq_zero (l : String) : (l.length == 0) = (l == "") := by
  cases l with
  | mk d =>
    cases d with
    | nil => rfl
    | cons c cs =>
      have h1 : ((String.mk (c :: cs)).length == 0) = false := by
        simp [String.length]
      have h2 : (String.mk (c :: cs) == String.mk []) = false := by
        rw [beq_eq_false_iff_ne]
        intro h
        cases h
      exact h1.trans h2.symm

theorem skipLine_eq_not_specKeep (l : String) : skipLine l = !(specKeep l) := by
  unfold skipLine specKeep
  rw [string_length_beq_zero]
  cases h1 : (l == "") <;> cases h2 : (l == "MakeCatalogs.munki") <;>
    cases h3 : (l.data.head? == some '#') <;> simp [h1, h2, h3]

/-! ## Recipe executor (main.go lines 44-77) -/

/-- Outcomes of the external effects one `runAutopkg` call can perform:
the deputy `Run` of the autopkg command (`runErr`), the `os.Open` of the
report file (`openErr`), and the plist decode (`decoded`/`decodeErr`). -/
structure ExecEnv where
  runErr : Option String
  openErr : Option String
  decoded : autopkgReport
  decodeErr : Option String
deriving DecidableEq, Repr

/-- External operations `runAutopkg` attempts, in order. -/
inductive ExecAction where
  | runTool (cmdPath recipe : String) (check : Bool)
  | readReport (path : String)
deriving DecidableEq, Repr

/-- `readReportPlist`: open the report file, then decode into the report;
returns the (possibly default) report together with the first error. -/
def readReportPlist (env : ExecEnv) : autopkgReport × Option String :=
  match env.openErr with
  | some e => (emptyReport, some e)
  | none => (env.decoded, env.decodeErr)

/-- `runAutopkg`: run the external tool; on a tool error log and return the
empty report; otherwise read the report file, and on a read/decode error
log and return the empty report.  The second component records which
external operations were attempted.  The Go function returns only an
`autopkgReport` — it has no error result to propagate. -/
def runAutopkg (env : ExecEnv) (recipe reportsPath cmdPath : String)
    (check : Bool) : autopkgReport × List ExecAction :=
  match env.runErr with
  | some _ => (emptyReport, [ExecAction.runTool cmdPath recipe check])
  | none =>
    match readReportPlist env with
    | (r, none) =>
        (r, [ExecAction.runTool cmdPath recipe check,
             ExecAction.readReport (reportsPath ++ "/" ++ recipe)])
    | (_, some _) =>
        (emptyReport, [ExecAction.runTool cmdPath recipe check,
                       ExecAction.readReport (reportsPath ++ "/" ++ recipe)])

/-- An environment in which the autopkg invocation itself fails. -/
def envRunFail : ExecEnv :=
  { runErr := some "exit status 1", openErr := none,
    decoded := emptyReport, decodeErr := none }

/-! ## Notifier (the notifySlack variant linked by main.go) -/

/-- Outcome of one `notifySlack` run over a list of received reports. -/
inductive NotifyOutcome where
  | finished
  | stoppedEarly
  | panicked
deriving DecidableEq, Repr

/-- Message text for one download row:
`"New download: " + filepath.Base(row["download_path"].(string))`;
`none` marks the panic of the type assertion. -/
def fmtDownload (row : Row) : Option String :=
  (asString (row.lookup "download_path")).map
    (fun p => "New download: " ++ filepathBase p)

/-- Message text for one munki-import row:
`"New munki import: " + row["name"].(string) + " " + row["version"].(string)`. -/
def fmtImport (row : Row) : Option String :=
  match asString (row.lookup "name"), asString (row.lookup "version") with
  | some n, some v => some ("New munki import: " ++ n ++ " " ++ v)
  | _, _ => none

/-- One `for _, row := range summary.DataRows` loop of `notifySlack`:
format each row and POST it; a failed POST is logged and the function
returns (`stoppedEarly`); a failed type assertion panics.  Returns the
texts of the attempted POSTs, the next POST index, and the outcome. -/
def notifyRows (resp : Nat → Bool) (fmt : Row → Option String) :
    List Row → Nat → List String × Nat × NotifyOutcome
  | [], i => ([], i, NotifyOutcome.finished)
  | row :: rows, i =>
    match fmt row with
    | none => ([], i, NotifyOutcome.panicked)
    | some text =>
      if resp i then
        match notifyRows resp fmt rows (i + 1) with
        | (ms, j, o) => (text :: ms, j, o)
      else ([text], i + 1, NotifyOutcome.stoppedEarly)

/-- The body of `notifySlack` for one received report: the download-summary
loop, then (if it completed) the munki-import-summary loop. -/
def notifyReport (resp : Nat → Bool) (i : Nat) (report : autopkgReport) :
    List String × Nat × NotifyOutcome :=
  match report.SummaryResults.lookup "url_downloader_summary_result" with
  | some summary =>
    match notifyRows resp fmtDownload summary.DataRows i with
    | (ms1, i1, NotifyOutcome.finished) =>
      match report.SummaryResults.lookup "munki_importer_summary_result" with
      | some summary2 =>
        match notifyRows resp fmtImport summary2.DataRows i1 with
        | (ms2, i2, o2) => (ms1 ++ ms2, i2, o2)
      | none => (ms1, i1, NotifyOutcome.finished)
    | r => r
  | none =>
    match report.SummaryResults.lookup "munki_importer_summary_result" with
    | some summary2 => notifyRows resp fmtImport summary2.DataRows i
    | none => ([], i, NotifyOutcome.finished)

/-- `notifySlack`'s `for report := range reports` loop over the sequence of
reports it receives before the stream closes. -/
def notifySlackRun (resp : Nat → Bool) :
    List autopkgReport → Nat → List String × NotifyOutcome
  | [], _ => ([], NotifyOutcome.finished)
  | r :: rs, i =>
    match notifyReport resp i r with
    | (ms, j, NotifyOutcome.finished) =>
      match notifySlackRun resp rs j with
      | (ms2, o2) => (ms ++ ms2, o2)
    | (ms, _, o) => (ms, o)

/-! ## Configuration and the call from main (main.go lines 162-230) -/

/-- `slack` config block (toml). -/
structure slack where
  WebhookURL : String
  Channel : String
  Username : String
  IconURL : String
deriving DecidableEq, Repr

/-- `Config` from main.go.  Durations are nanosecond counts in Go; only
their zero-test matters here, so they are natural numbers. -/
structure Config where
  AutopkgCmdPath : String
  MakecatalogsCmdPath : String
  RecipesFile : String
  MunkiRepoPath : String
  ReportsPath : String
  MaxProcesses : Nat
  ExecTimeout : Nat
  CheckInterval : Nat
  Slack : slack
deriving DecidableEq, Repr

/-- The default-filling in `main` (lines 183-201). -/
def applyDefaults (c : Config) : Config :=
  { c with
    AutopkgCmdPath :=
      if c.AutopkgCmdPath = "" then "/usr/local/bin/autopkg" else c.AutopkgCmdPath,
    MakecatalogsCmdPath :=
      if c.MakecatalogsCmdPath = "" then "/usr/local/munki/makecatalogs"
      else c.MakecatalogsCmdPath,
    MaxProcesses := if c.MaxProcesses = 0 then 1 else c.MaxProcesses,
    ExecTimeout := if c.ExecTimeout = 0 then 600 else c.ExecTimeout,
    CheckInterval := if c.CheckInterval = 0 then 1 else c.CheckInterval }

/-- The parameters of `process` in positional order (main.go line 95). -/
structure ProcessArgs where
  concurrency : Nat
  slackReport : Bool
  check : Bool
  recipeFile : String
  autopkgCmdPath : String
  makecatalogsPath : String
  repoPath : String
  reportsPath : String
  execTimeout : Nat
  slackConfig : slack
deriving DecidableEq, Repr

/-- The argument vector `main` passes to `process` (line 226): note that
`conf.ReportsPath` is passed for both the `repoPath` and the `reportsPath`
parameters, and `conf.MunkiRepoPath` is not passed at all. -/
def mainProcessArgs (fSlack fCheck : Bool) (conf0 : Config) : ProcessArgs :=
  let conf := applyDefaults conf0
  { concurrency := conf.MaxProcesses
    slackReport := fSlack
    check := fCheck
    recipeFile := conf.RecipesFile
    autopkgCmdPath := conf.AutopkgCmdPath
    makecatalogsPath := conf.MakecatalogsCmdPath
    repoPath := conf.ReportsPath
    reportsPath := conf.ReportsPath
    execTimeout := conf.ExecTimeout
    slackConfig := conf.Slack }

/-! ## The concurrent `process` function (main.go lines 95-160) as a
small-step transition system

One `process` call spawns: a recipe-reading goroutine, a channel-closing
goroutine (`wg.Wait(); close(reports)`), an aggregator goroutine, the
notifier goroutine when slack is enabled, and one worker goroutine per
dispatched recipe; the `process` goroutine itself runs the dispatch loop
and then the rebuild check.  Unbuffered channel communication is a
rendezvous step; `sem` is a counter bounded by the configured capacity;
sending on a closed channel panics, which freezes the system. -/

/-- Program counter of the recipe-reading goroutine (lines 111-130). -/
inductive ReaderPC where
  | rstart
  | rloop (remaining : List String)
  | rgone
deriving DecidableEq, Repr

/-- Program counter of the `process` goroutine itself: the dispatch loop
(lines 145-153), then the rebuild check (155-157), then `done <- true`. -/
inductive MainPC where
  | mrecv
  | mgot (r : String)
  | madded (r : String)
  | msem (r : String)
  | mcheck
  | mmake
  | mdone
  | mfin
deriving DecidableEq, Repr

/-- State of one worker goroutine (lines 148-152): running the autopkg
call, ready to send its report, sent, wait-group decremented, finished. -/
inductive WState where
  | running (r : String)
  | ready (r : String)
  | sent
  | wdone
  | gone
deriving DecidableEq, Repr

/-- The fixed data of one `process` call: its parameters plus the outcomes
of the external world (whether the recipe file opens, its lines, and the
report produced for each recipe). -/
structure SysCfg where
  lines : List String
  openOk : Bool
  concurrency : Nat
  slackEnabled : Bool
  report : String → autopkgReport
  repoPath : String

/-- An interleaving state of one `process` call. -/
structure SysState where
  reader : ReaderPC
  mainPC : MainPC
  workers : List WState
  wg : Nat
  sem : Nat
  recipesClosed : Bool
  reportsClosed : Bool
  closerDone : Bool
  aggDone : Bool
  catalogsModified : Bool
  aggSeen : Nat
  notSeen : Nat
  makeCalls : List String
  doneSent : Bool
  panicked : Bool

/-- Initial state: `wg` starts at 1 (the `wg.Add(1)` at line 103 whose
`Done` is the reader goroutine's deferred call). -/
def initState : SysState :=
  { reader := ReaderPC.rstart
    mainPC := MainPC.mrecv
    workers := []
    wg := 1
    sem := 0
    recipesClosed := false
    reportsClosed := false
    closerDone := false
    aggDone := false
    catalogsModified := false
    aggSeen := 0
    notSeen := 0
    makeCalls := []
    doneSent := false
    panicked := false }

/-- The result-kind whose presence sets `catalogsModified` (line 139). -/
def munkiImporterKey : String := "munki_importer_summary_result"

/-- One atomic step of one goroutine.  Every constructor requires the
system not to have panicked (a Go panic kills the whole process). -/
inductive Step (cfg : SysCfg) : SysState → SysState → Prop where
  | openOkStep (s : SysState) :
      s.panicked = false → s.reader = ReaderPC.rstart → cfg.openOk = true →
      Step cfg s { s with reader := ReaderPC.rloop cfg.lines }
  | openFailStep (s : SysState) :
      s.panicked = false → s.reader = ReaderPC.rstart → cfg.openOk = false →
      Step cfg s { s with reader := ReaderPC.rgone, wg := s.wg - 1 }
  | skipStep (s : SysState) (l : String) (ls : List String) :
      s.panicked = false → s.reader = ReaderPC.rloop (l :: ls) →
      skipLine l = true →
      Step cfg s { s with reader := ReaderPC.rloop ls }
  | sendRecipeStep (s : SysState) (l : String) (ls : List String) :
      s.panicked = false → s.reader = ReaderPC.rloop (l :: ls) →
      skipLine l = false → s.mainPC = MainPC.mrecv →
      Step cfg s { s with reader := ReaderPC.rloop ls, mainPC := MainPC.mgot l }
  | closeRecipesStep (s : SysState) :
      s.panicked = false → s.reader = ReaderPC.rloop [] →
      Step cfg s { s with reader := ReaderPC.rgone, recipesClosed := true,
                          wg := s.wg - 1 }
  | mainExitStep (s : SysState) :
      s.panicked = false → s.mainPC = MainPC.mrecv → s.recipesClosed = true →
      Step cfg s { s with mainPC := MainPC.mcheck }
  | wgAddStep (s : SysState) (r : String) :
      s.panicked = false → s.mainPC = MainPC.mgot r →
      Step cfg s { s with mainPC := MainPC.madded r, wg := s.wg + 1 }
  | semAcquireStep (s : SysState) (r : String) :
      s.panicked = false → s.mainPC = MainPC.madded r →
      s.sem < cfg.concurrency →
      Step cfg s { s with mainPC := MainPC.msem r, sem := s.sem + 1 }
  | spawnStep (s : SysState) (r : String) :
      s.panicked = false → s.mainPC = MainPC.msem r →
      Step cfg s { s with mainPC := MainPC.mrecv,
                          workers := s.workers ++ [WState.running r] }
  | runDoneStep (s : SysState) (i : Nat) (r : String) :
      s.panicked = false → s.workers.get? i = some (WState.running r) →
      Step cfg s { s with workers := s.workers.set i (WState.ready r) }
  | aggRecvStep (s : SysState) (i : Nat) (r : String) :
      s.panicked = false → s.workers.get? i = some (WState.ready r) →
      s.reportsClosed = false → s.aggDone = false →
      Step cfg s { s with workers := s.workers.set i WState.sent,
                          aggSeen := s.aggSeen + 1,
                          catalogsModified :=
                            if ((cfg.report r).SummaryResults.lookup
                                munkiImporterKey).isSome
                            then true else s.catalogsModified }
  | notRecvStep (s : SysState) (i : Nat) (r : String) :
      s.panicked = false → cfg.slackEnabled = true →
      s.workers.get? i = some (WState.ready r) → s.reportsClosed = false →
      Step cfg s { s with workers := s.workers.set i WState.sent,
                          notSeen := s.notSeen + 1 }
  | sendClosedStep (s : SysState) (i : Nat) (r : String) :
      s.panicked = false → s.workers.get? i = some (WState.ready r) →
      s.reportsClosed = true →
      Step cfg s { s with panicked := true }
  | wgDoneStep (s : SysState) (i : Nat) :
      s.panicked = false → s.workers.get? i = some WState.sent →
      Step cfg s { s with workers := s.workers.set i WState.wdone,
                          wg := s.wg - 1 }
  | releaseStep (s : SysState) (i : Nat) :
      s.panicked = false → s.workers.get? i = some WState.wdone →
      Step cfg s { s with workers := s.workers.set i WState.gone,
                          sem := s.sem - 1 }
  | closeReportsStep (s : SysState) :
      s.panicked = false → s.closerDone = false → s.wg = 0 →
      Step cfg s { s with reportsClosed := true, closerDone := true }
  | aggExitStep (s : SysState) :
      s.panicked = false → s.aggDone = false → s.reportsClosed = true →
      Step cfg s { s with aggDone := true }
  | checkTrueStep (s : SysState) :
      s.panicked = false → s.mainPC = MainPC.mcheck →
      s.catalogsModified = true →
      Step cfg s { s with mainPC := MainPC.mmake }
  | checkFalseStep (s : SysState) :
      s.panicked = false → s.mainPC = MainPC.mcheck →
      s.catalogsModified = false →
      Step cfg s { s with mainPC := MainPC.mdone }
  | makeStep (s : SysState) :
      s.panicked = false → s.mainPC = MainPC.mmake →
      Step cfg s { s with mainPC := MainPC.mdone,
                          makeCalls := s.makeCalls ++ [cfg.repoPath] }
  | doneStep (s : SysState) :
      s.panicked = false → s.mainPC = MainPC.mdone →
      Step cfg s { s with mainPC := MainPC.mfin, doneSent := true }

/-- States one `process` call can reach from its start. -/
def Reachable (cfg : SysCfg) (s : SysState) : Prop :=
  Relation.ReflTransGen (Step cfg) initState s

/-! ## Counting helpers and invariants of the transition system -/

/-- Workers currently inside their `runAutopkg` call. -/
def isRunning : WState → Bool
  | WState.running _ => true
  | _ => false

/-- Workers that still hold their admission slot (everything up to the
`<-sem` release). -/
def isHeld : WState → Bool
  | WState.gone => false
  | _ => true

/-- Number of executor invocations active in a state. -/
def runningCount (s : SysState) : Nat := s.workers.countP isRunning

/-- Number of admission slots held by workers in a state. -/
def heldCount (s : SysState) : Nat := s.workers.countP isHeld

/-- Admission slots held by the dispatch loop itself: one between the
`sem <- 1` acquire and the `go func` spawn. -/
def mainHold : MainPC → Nat
  | MainPC.msem _ => 1
  | _ => 0

theorem countP_set_eq (p : WState → Bool) (l : List WState) (i : Nat)
    (a b : WState) (h : l.get? i = some a) :
    (l.set i b).countP p + (if p a then 1 else 0) =
      l.countP p + (if p b then 1 else 0) := by
  induction l generalizing i with
  | nil => cases h
  | cons x xs ih =>
    cases i with
    | zero =>
      simp only [List.get?] at h
      cases h
      simp only [List.set, List.countP_cons]
      omega
    | succ n =>
      simp only [List.get?] at h
      have := ih n h
      simp only [List.set, List.countP_cons]
      omega

theorem countP_le_of_imp (p q : WState → Bool) (l : List WState)
    (h : ∀ a, p a = true → q a = true) : l.countP p ≤ l.countP q := by
  induction l with
  | nil => simp
  | cons x xs ih =>
    simp only [List.countP_cons]
    have hx := h x
    cases hp : p x <;> cases hq : q x <;> simp [hp, hq] at hx ⊢ <;> omega

theorem countP_append_one_held (l : List WState) (r : String) :
    (l ++ [WState.running r]).countP isHeld = l.countP isHeld + 1 := by
  simp [List.countP_append, List.countP_cons, isHeld]

/-- The admission-gate invariant: slots held by workers plus the slot the
dispatch loop may be holding never exceed the `sem` fill, which never
exceeds the capacity. -/
def SemInv (cfg : SysCfg) (s : SysState) : Prop :=
  heldCount s + mainHold s.mainPC ≤ s.sem ∧ s.sem ≤ cfg.concurrency

theorem semInv_step {cfg : SysCfg} {s t : SysState}
    (hst : Step cfg s t) (h : SemInv cfg s) : SemInv cfg t := by
  obtain ⟨h1, h2⟩ := h
  cases hst with
  | openOkStep hp hr ho => exact ⟨h1, h2⟩
  | openFailStep hp hr ho => exact ⟨h1, h2⟩
  | skipStep l ls hp hr hsk => exact ⟨h1, h2⟩
  | sendRecipeStep l ls hp hr hsk hm =>
    refine ⟨?_, h2⟩
    rw [hm] at h1
    dsimp only [heldCount, mainHold] at h1 ⊢
    omega
  | closeRecipesStep hp hr => exact ⟨h1, h2⟩
  | mainExitStep hp hm hc =>
    refine ⟨?_, h2⟩
    rw [hm] at h1
    dsimp only [heldCount, mainHold] at h1 ⊢
    omega
  | wgAddStep r hp hm =>
    refine ⟨?_, h2⟩
    rw [hm] at h1
    dsimp only [heldCount, mainHold] at h1 ⊢
    omega
  | semAcquireStep r hp hm hlt =>
    rw [hm] at h1
    have e0 : mainHold (MainPC.madded r) = 0 := rfl
    have e1 : mainHold (MainPC.msem r) = 1 := rfl
    rw [e0] at h1
    constructor
    · dsimp only [heldCount] at h1 ⊢
      rw [e1]
      omega
    · dsimp only
      omega
  | spawnStep r hp hm =>
    refine ⟨?_, h2⟩
    rw [hm] at h1
    have e1 : mainHold (MainPC.msem r) = 1 := rfl
    have e0 : mainHold MainPC.mrecv = 0 := rfl
    rw [e1] at h1
    dsimp only [heldCount] at h1 ⊢
    rw [e0, countP_append_one_held]
    omega
  | runDoneStep i r hp hw =>
    refine ⟨?_, h2⟩
    have hc := countP_set_eq isHeld s.workers i (WState.running r)
      (WState.ready r) hw
    simp only [isHeld] at hc
    dsimp only [heldCount] at h1 ⊢
    simp only [if_pos] at hc
    omega
  | aggRecvStep i r hp hw hrc ha =>
    refine ⟨?_, h2⟩
    have hc := countP_set_eq isHeld s.workers i (WState.ready r)
      WState.sent hw
    simp only [isHeld] at hc
    dsimp only [heldCount] at h1 ⊢
    simp only [if_pos] at hc
    omega
  | notRecvStep i r hp hsl hw hrc =>
    refine ⟨?_, h2⟩
    have hc := countP_set_eq isHeld s.workers i (WState.ready r)
      WState.sent hw
    simp only [isHeld] at hc
    dsimp only [heldCount] at h1 ⊢
    simp only [if_pos] at hc
    omega
  | sendClosedStep i r hp hw hrc => exact ⟨h1, h2⟩
  | wgDoneStep i hp hw =>
    refine ⟨?_, h2⟩
    have hc := countP_set_eq isHeld s.workers i WState.sent WState.wdone hw
    simp only [isHeld] at hc
    dsimp only [heldCount] at h1 ⊢
    simp only [if_pos] at hc
    omega
  | releaseStep i hp hw =>
    have hc := countP_set_eq isHeld s.workers i WState.wdone WState.gone hw
    simp only [isHeld] at hc
    simp at hc
    constructor
    · dsimp only [heldCount] at h1 ⊢
      omega
    · dsimp only
      omega
  | closeReportsStep hp hcl hwg => exact ⟨h1, h2⟩
  | aggExitStep hp ha hrc => exact ⟨h1, h2⟩
  | checkTrueStep hp hm hf =>
    refine ⟨?_, h2⟩
    rw [hm] at h1
    dsimp only [heldCount, mainHold] at h1 ⊢
    omega
  | checkFalseStep hp hm hf =>
    refine ⟨?_, h2⟩
    rw [hm] at h1
    dsimp only [heldCount, mainHold] at h1 ⊢
    omega
  | makeStep hp hm =>
    refine ⟨?_, h2⟩
    rw [hm] at h1
    dsimp only [heldCount, mainHold] at h1 ⊢
    omega
  | doneStep hp hm =>
    refine ⟨?_, h2⟩
    rw [hm] at h1
    dsimp only [heldCount, mainHold] at h1 ⊢
    omega

theorem semInv_reach {cfg : SysCfg} {s : SysState}
    (h : Reachable cfg s) : SemInv cfg s := by
  induction h with
  | refl => exact ⟨Nat.le_refl 0, Nat.zero_le _⟩
  | tail hr hstep ih => exact semInv_step hstep ih

/-- When the recipe file does not open, the reader goroutine returns
without closing the `recipes` channel, so the dispatch loop blocks in
`range recipes` forever: the reader is at start or gone, the channel is
never closed, the dispatch loop never advances, no worker is ever spawned,
and `done <- true` is never executed. -/
def StuckInv (s : SysState) : Prop :=
  (s.reader = ReaderPC.rstart ∨ s.reader = ReaderPC.rgone) ∧
  s.recipesClosed = false ∧ s.mainPC = MainPC.mrecv ∧
  s.workers = [] ∧ s.doneSent = false

theorem stuckInv_step {cfg : SysCfg} {s t : SysState} (ho : cfg.openOk = false)
    (hst : Step cfg s t) (h : StuckInv s) : StuckInv t := by
  obtain ⟨hr, hc, hm, hw, hd⟩ := h
  cases hst with
  | openOkStep hp h1 h2 => rw [ho] at h2; cases h2
  | openFailStep hp h1 h2 => exact ⟨Or.inr rfl, hc, hm, hw, hd⟩
  | skipStep l ls hp h1 h2 =>
    rcases hr with h3 | h3 <;> rw [h3] at h1 <;> cases h1
  | sendRecipeStep l ls hp h1 h2 h3 =>
    rcases hr with h4 | h4 <;> rw [h4] at h1 <;> cases h1
  | closeRecipesStep hp h1 =>
    rcases hr with h3 | h3 <;> rw [h3] at h1 <;> cases h1
  | mainExitStep hp h1 h2 => rw [hc] at h2; cases h2
  | wgAddStep r hp h1 => rw [hm] at h1; cases h1
  | semAcquireStep r hp h1 h2 => rw [hm] at h1; cases h1
  | spawnStep r hp h1 => rw [hm] at h1; cases h1
  | runDoneStep i r hp h1 => rw [hw] at h1; cases i <;> cases h1
  | aggRecvStep i r hp h1 h2 h3 => rw [hw] at h1; cases i <;> cases h1
  | notRecvStep i r hp h1 h2 h3 => rw [hw] at h2; cases i <;> cases h2
  | sendClosedStep i r hp h1 h2 => rw [hw] at h1; cases i <;> cases h1
  | wgDoneStep i hp h1 => rw [hw] at h1; cases i <;> cases h1
  | releaseStep i hp h1 => rw [hw] at h1; cases i <;> cases h1
  | closeReportsStep hp h1 h2 => exact ⟨hr, hc, hm, hw, hd⟩
  | aggExitStep hp h1 h2 => exact ⟨hr, hc, hm, hw, hd⟩
  | checkTrueStep hp h1 h2 => rw [hm] at h1; cases h1
  | checkFalseStep hp h1 h2 => rw [hm] at h1; cases h1
  | makeStep hp h1 => rw [hm] at h1; cases h1
  | doneStep hp h1 => rw [hm] at h1; cases h1

theorem stuckInv_reach {cfg : SysCfg} {s : SysState} (ho : cfg.openOk = false)
    (h : Reachable cfg s) : StuckInv s := by
  induction h with
  | refl => exact ⟨Or.inl rfl, rfl, rfl, rfl, rfl⟩
  | tail hr hstep ih => exact stuckInv_step ho hstep ih

/-- Whether a string equals the repo-path argument `process` was given. -/
def eqRepoPath (rp p : String) : Bool := p == rp

theorem makeCalls_repoPath {cfg : SysCfg} {s : SysState}
    (h : Reachable cfg s) :
    s.makeCalls.all (eqRepoPath cfg.repoPath) = true := by
  induction h with
  | refl => rfl
  | tail hr hstep ih =>
    cases hstep with
    | makeStep hp hm =>
      dsimp only
      rw [List.all_append, ih]
      simp [List.all_cons, eqRepoPath]
    | openOkStep hp h1 h2 => exact ih
    | openFailStep hp h1 h2 => exact ih
    | skipStep l ls hp h1 h2 => exact ih
    | sendRecipeStep l ls hp h1 h2 h3 => exact ih
    | closeRecipesStep hp h1 => exact ih
    | mainExitStep hp h1 h2 => exact ih
    | wgAddStep r hp h1 => exact ih
    | semAcquireStep r hp h1 h2 => exact ih
    | spawnStep r hp h1 => exact ih
    | runDoneStep i r hp h1 => exact ih
    | aggRecvStep i r hp h1 h2 h3 => exact ih
    | notRecvStep i r hp h1 h2 h3 => exact ih
    | sendClosedStep i r hp h1 h2 => exact ih
    | wgDoneStep i hp h1 => exact ih
    | releaseStep i hp h1 => exact ih
    | closeReportsStep hp h1 h2 => exact ih
    | aggExitStep hp h1 h2 => exact ih
    | checkTrueStep hp h1 h2 => exact ih
    | checkFalseStep hp h1 h2 => exact ih
    | doneStep hp h1 => exact ih

/-! ## Concrete cycles used as counterexamples -/

/-- A report whose summary results contain the catalog-import kind. -/
def rptMunki : autopkgReport :=
  { Failures := [],
    SummaryResults :=
      [(munkiImporterKey, { DataRows := [], Header := [], SummaryText := "" })] }

/-- One-recipe cycle, concurrency 1, notification disabled; the recipe's
report contains the catalog-import result-kind. -/
def cfg1 : SysCfg :=
  { lines := ["Firefox.munki"], openOk := true, concurrency := 1,
    slackEnabled := false, report := fun _ => rptMunki,
    repoPath := "/reports" }

/-- Final state of the schedule in which the dispatch loop finishes,
reads the flag, skips the rebuild and signals `done` before the single
worker has even produced its report. -/
def c1Final : SysState :=
  { reader := ReaderPC.rgone, mainPC := MainPC.mfin,
    workers := [WState.gone], wg := 0, sem := 0,
    recipesClosed := true, reportsClosed := true, closerDone := true,
    aggDone := true, catalogsModified := true, aggSeen := 1, notSeen := 0,
    makeCalls := [], doneSent := true, panicked := false }

theorem c1_trace : Reachable cfg1 c1Final := by
  have h0 : Reachable cfg1 initState := Relation.ReflTransGen.refl
  have h1 := h0.tail (Step.openOkStep initState rfl rfl rfl)
  have h2 := h1.tail (Step.sendRecipeStep _ "Firefox.munki" [] rfl rfl (by decide) rfl)
  have h3 := h2.tail (Step.wgAddStep _ "Firefox.munki" rfl rfl)
  have h4 := h3.tail (Step.semAcquireStep _ "Firefox.munki" rfl rfl (by decide))
  have h5 := h4.tail (Step.spawnStep _ "Firefox.munki" rfl rfl)
  have h6 := h5.tail (Step.closeRecipesStep _ rfl rfl)
  have h7 := h6.tail (Step.mainExitStep _ rfl rfl rfl)
  have h8 := h7.tail (Step.checkFalseStep _ rfl rfl rfl)
  have h9 := h8.tail (Step.doneStep _ rfl rfl)
  have h10 := h9.tail (Step.runDoneStep _ 0 "Firefox.munki" rfl rfl)
  have h11 := h10.tail (Step.aggRecvStep _ 0 "Firefox.munki" rfl rfl rfl rfl)
  have h12 := h11.tail (Step.wgDoneStep _ 0 rfl rfl)
  have h13 := h12.tail (Step.closeReportsStep _ rfl rfl rfl)
  have h14 := h13.tail (Step.aggExitStep _ rfl rfl rfl)
  have h15 := h14.tail (Step.releaseStep _ 0 rfl rfl)
  exact h15

/-- Final state of the schedule in which the reader's deferred `wg.Done`
and the closing goroutine run between the dispatch loop receiving the only
recipe and its `wg.Add(1)`: the reports channel is closed while the
dispatched task has not yet sent, and the task then panics sending on the
closed channel. -/
def c2Final : SysState :=
  { reader := ReaderPC.rgone, mainPC := MainPC.mrecv,
    workers := [WState.ready "Firefox.munki"], wg := 1, sem := 1,
    recipesClosed := true, reportsClosed := true, closerDone := true,
    aggDone := false, catalogsModified := false, aggSeen := 0, notSeen := 0,
    makeCalls := [], doneSent := false, panicked := true }

theorem c2_trace : Reachable cfg1 c2Final := by
  have h0 : Reachable cfg1 initState := Relation.ReflTransGen.refl
  have h1 := h0.tail (Step.openOkStep initState rfl rfl rfl)
  have h2 := h1.tail (Step.sendRecipeStep _ "Firefox.munki" [] rfl rfl (by decide) rfl)
  have h3 := h2.tail (Step.closeRecipesStep _ rfl rfl)
  have h4 := h3.tail (Step.closeReportsStep _ rfl rfl rfl)
  have h5 := h4.tail (Step.wgAddStep _ "Firefox.munki" rfl rfl)
  have h6 := h5.tail (Step.semAcquireStep _ "Firefox.munki" rfl rfl (by decide))
  have h7 := h6.tail (Step.spawnStep _ "Firefox.munki" rfl rfl)
  have h8 := h7.tail (Step.runDoneStep _ 0 "Firefox.munki" rfl rfl)
  have h9 := h8.tail (Step.sendClosedStep _ 0 "Firefox.munki" rfl rfl rfl)
  exact h9

/-- One-recipe cycle with notification enabled. -/
def cfg3 : SysCfg :=
  { lines := ["Firefox.munki"], openOk := true, concurrency := 1,
    slackEnabled := true, report := fun _ => rptMunki,
    repoPath := "/reports" }

/-- Final state of the schedule in which the notifier, not the aggregator,
receives the only report from the shared channel: the cycle completes with
the aggregator having observed nothing (and the catalog-import indicator
contained in the report is lost). -/
def c3Final : SysState :=
  { reader := ReaderPC.rgone, mainPC := MainPC.mfin,
    workers := [WState.gone], wg := 0, sem := 0,
    recipesClosed := true, reportsClosed := true, closerDone := true,
    aggDone := true, catalogsModified := false, aggSeen := 0, notSeen := 1,
    makeCalls := [], doneSent := true, panicked := false }

theorem c3_trace : Reachable cfg3 c3Final := by
  have h0 : Reachable cfg3 initState := Relation.ReflTransGen.refl
  have h1 := h0.tail (Step.openOkStep initState rfl rfl rfl)
  have h2 := h1.tail (Step.sendRecipeStep _ "Firefox.munki" [] rfl rfl (by decide) rfl)
  have h3 := h2.tail (Step.wgAddStep _ "Firefox.munki" rfl rfl)
  have h4 := h3.tail (Step.semAcquireStep _ "Firefox.munki" rfl rfl (by decide))
  have h5 := h4.tail (Step.spawnStep _ "Firefox.munki" rfl rfl)
  have h6 := h5.tail (Step.closeRecipesStep _ rfl rfl)
  have h7 := h6.tail (Step.mainExitStep _ rfl rfl rfl)
  have h8 := h7.tail (Step.runDoneStep _ 0 "Firefox.munki" rfl rfl)
  have h9 := h8.tail (Step.notRecvStep _ 0 "Firefox.munki" rfl rfl rfl rfl)
  have h10 := h9.tail (Step.wgDoneStep _ 0 rfl rfl)
  have h11 := h10.tail (Step.closeReportsStep _ rfl rfl rfl)
  have h12 := h11.tail (Step.aggExitStep _ rfl rfl rfl)
  have h13 := h12.tail (Step.releaseStep _ 0 rfl rfl)
  have h14 := h13.tail (Step.checkFalseStep _ rfl rfl rfl)
  have h15 := h14.tail (Step.doneStep _ rfl rfl)
  exact h15

/-! ## Claims -/

/-- C1: the claim says the catalog-rebuild decision is made strictly after
every dispatched result has been observed by the aggregator, and that
`makeCatalogs` is invoked exactly once after the stream closes when some
result contains the result-kind "munki_importer_summary_result".  It is
false on the code: `process` reads `catalogsModified` right after the
dispatch loop, without waiting for the workers or the aggregator.  In the
exhibited reachable schedule the cycle signals `done`, the stream closes
and the aggregator observes the one report — which contains the
catalog-import kind, so the flag ends up true — yet `makeCatalogs` was
never invoked (`makeCalls = []`). -/
theorem rebuild_decision_before_results :
    Reachable cfg1 c1Final ∧ c1Final.doneSent = true ∧
    c1Final.aggDone = true ∧ c1Final.reportsClosed = true ∧
    c1Final.aggSeen = 1 ∧ c1Final.catalogsModified = true ∧
    ((cfg1.report "Firefox.munki").SummaryResults.lookup
      munkiImporterKey).isSome = true ∧
    c1Final.makeCalls = [] :=
  ⟨c1_trace, rfl, rfl, rfl, rfl, rfl, rfl, rfl⟩

/-- C2: the claim says the result stream is closed exactly once and only
after all k dispatched tasks have written their result, so consumers
observe exactly k items.  It is false on the code: the reader goroutine's
deferred `wg.Done` races with the dispatch loop's `wg.Add(1)`.  In the
exhibited reachable schedule (one recipe, so k = 1) the reports channel is
closed before the single dispatched task sends; the task then panics on
the closed channel and the consumers have observed 0 of the 1 items. -/
theorem stream_closed_before_task_wrote :
    Reachable cfg1 c2Final ∧ c2Final.reportsClosed = true ∧
    c2Final.panicked = true ∧ c2Final.aggSeen = 0 ∧ c2Final.notSeen = 0 ∧
    (recipesFromLines cfg1.lines).length = 1 :=
  ⟨c2_trace, rfl, rfl, rfl, rfl, rfl⟩

/-- C3: the claim says that with notification enabled every execution
result is observed by both the aggregator and the notifier.  It is false
on the code: both goroutines `range` over the same `reports` channel, so
each item is received by exactly one of them.  In the exhibited reachable
schedule the cycle runs to completion and the only result is received by
the notifier (`notSeen = 1`) while the aggregator observes nothing
(`aggSeen = 0`). -/
theorem result_seen_by_only_one_consumer :
    Reachable cfg3 c3Final ∧ cfg3.slackEnabled = true ∧
    c3Final.doneSent = true ∧ c3Final.aggDone = true ∧
    c3Final.notSeen = 1 ∧ c3Final.aggSeen = 0 :=
  ⟨c3_trace, rfl, rfl, rfl, rfl, rfl⟩

/-- C4: within one `process` cycle, at no instant are more than the
configured concurrency limit of `runAutopkg` invocations active: the
slot-counting invariant of the `sem` channel bounds the number of workers
inside their executor call in every reachable state. -/
theorem concurrency_bound (cfg : SysCfg) (s : SysState)
    (hN : 1 ≤ cfg.concurrency) (h : Reachable cfg s) :
    runningCount s ≤ cfg.concurrency := by
  obtain ⟨h1, h2⟩ := semInv_reach h
  have hmono : s.workers.countP isRunning ≤ s.workers.countP isHeld := by
    refine countP_le_of_imp isRunning isHeld s.workers ?_
    intro a ha
    cases a with
    | running r => rfl
    | ready r => exact Bool.noConfusion ha
    | sent => exact Bool.noConfusion ha
    | wdone => exact Bool.noConfusion ha
    | gone => exact Bool.noConfusion ha
  dsimp only [runningCount, heldCount] at *
  omega

/-- Concurrency-limit 2 cycle used to witness the bound theorem. -/
def cfg4w : SysCfg :=
  { lines := ["Firefox.munki"], openOk := true, concurrency := 2,
    slackEnabled := false, report := fun _ => emptyReport,
    repoPath := "/reports" }

theorem concurrency_bound_witness :
    1 ≤ cfg4w.concurrency ∧ runningCount initState ≤ cfg4w.concurrency :=
  ⟨by decide,
   concurrency_bound cfg4w initState (by decide) Relation.ReflTransGen.refl⟩

/-- Configuration of the `process` call as `main` makes it: the external
data (recipe-file lines, open success, per-recipe reports) plus the
argument vector of main.go line 226. -/
def sysCfgOf (args : ProcessArgs) (lines : List String) (ok : Bool)
    (rep : String → autopkgReport) : SysCfg :=
  { lines := lines, openOk := ok, concurrency := args.concurrency,
    slackEnabled := args.slackReport, report := rep,
    repoPath := args.repoPath }

/-- C5: in a cycle started with the arguments `main` passes to `process`,
every `makeCatalogs` invocation receives `Config.ReportsPath` as its
repository-path argument, and the argument vector is independent of
`Config.MunkiRepoPath` (so that field is never passed to any invoked
operation). -/
theorem makeCatalogs_gets_reportsPath (fS fC : Bool) (conf : Config)
    (x : String) (lines : List String) (ok : Bool)
    (rep : String → autopkgReport) (s : SysState)
    (h : Reachable (sysCfgOf (mainProcessArgs fS fC conf) lines ok rep) s) :
    s.makeCalls.all (eqRepoPath conf.ReportsPath) = true ∧
    mainProcessArgs fS fC { conf with MunkiRepoPath := x } =
      mainProcessArgs fS fC conf :=
  ⟨makeCalls_repoPath h, rfl⟩

/-- Concrete configuration used to witness the C5 theorem. -/
def confW : Config :=
  { AutopkgCmdPath := "", MakecatalogsCmdPath := "",
    RecipesFile := "/etc/autopkgd/recipes", MunkiRepoPath := "/munki_repo",
    ReportsPath := "/reports", MaxProcesses := 0, ExecTimeout := 0,
    CheckInterval := 0,
    Slack := { WebhookURL := "", Channel := "#general",
               Username := "autopkgd", IconURL := "" } }

theorem makeCatalogs_gets_reportsPath_witness :
    initState.makeCalls.all (eqRepoPath confW.ReportsPath) = true ∧
    mainProcessArgs true false { confW with MunkiRepoPath := "/tmp" } =
      mainProcessArgs true false confW :=
  makeCatalogs_gets_reportsPath true false confW "/tmp" [] true
    (fun _ => emptyReport) initState Relation.ReflTransGen.refl

/-- C6: the recipe source yields exactly the input lines, in order and
with duplicates preserved, that are non-empty, not the reserved sentinel
"MakeCatalogs.munki", and do not start with the comment marker. -/
theorem recipe_source_filters (lines : List String) :
    recipesFromLines lines = lines.filter specKeep := by
  induction lines with
  | nil => rfl
  | cons l ls ih =>
    simp only [recipesFromLines, List.filter_cons, skipLine_eq_not_specKeep]
    cases h : specKeep l <;> simp [h, ih]

/-- C7 counterexample: the claim says the executor attempts to read and
decode the report file after the invocation completes whether it succeeded
or failed.  When the tool invocation fails, `runAutopkg` returns the empty
report immediately and never attempts the read. -/
theorem no_read_after_failed_run :
    ExecAction.readReport "/reports/Firefox.munki" ∉
      (runAutopkg envRunFail "Firefox.munki" "/reports"
        "/usr/local/bin/autopkg" false).2 := by
  decide

/-- C7 amended: the executor attempts the report read exactly when the
tool invocation succeeded; any failure — tool error, report-open error or
decode error — is non-fatal and yields the empty report, and `runAutopkg`
returns only a report, never an error. -/
theorem runAutopkg_read_behavior (env : ExecEnv)
    (recipe reportsPath cmdPath : String) (chk : Bool) :
    (runAutopkg env recipe reportsPath cmdPath chk).2 =
      (if env.runErr.isSome then [ExecAction.runTool cmdPath recipe chk]
       else [ExecAction.runTool cmdPath recipe chk,
             ExecAction.readReport (reportsPath ++ "/" ++ recipe)]) ∧
    (runAutopkg env recipe reportsPath cmdPath chk).1 =
      (if env.runErr.isSome || env.openErr.isSome || env.decodeErr.isSome
       then emptyReport else env.decoded) := by
  cases h1 : env.runErr <;> cases h2 : env.openErr <;>
    cases h3 : env.decodeErr <;>
    simp [runAutopkg, readReportPlist, h1, h2, h3]

/-- C8: the claim says that when the recipe source cannot be opened the
cycle aborts with zero executions dispatched and still completes so the
next interval retries.  The zero-dispatch half is true, but the completion
half is false on the code: the reader goroutine returns without closing
the `recipes` channel, so in every reachable state the dispatch loop is
still blocked and `done <- true` has not happened — the cycle never
completes and no next cycle starts. -/
theorem open_failure_blocks_cycle (cfg : SysCfg) (s : SysState)
    (ho : cfg.openOk = false) (h : Reachable cfg s) :
    s.doneSent = false ∧ s.workers = [] := by
  obtain ⟨hr, hc, hm, hw, hd⟩ := stuckInv_reach ho h
  exact ⟨hd, hw⟩

/-- Cycle whose recipe file fails to open, witnessing the C8 theorem. -/
def cfg8w : SysCfg :=
  { lines := ["Firefox.munki"], openOk := false, concurrency := 1,
    slackEnabled := false, report := fun _ => emptyReport,
    repoPath := "/reports" }

theorem open_failure_blocks_cycle_witness :
    initState.doneSent = false ∧ initState.workers = [] :=
  open_failure_blocks_cycle cfg8w initState rfl Relation.ReflTransGen.refl

/-- First webhook POST fails (transport error or non-200 status). -/
def respFail : Nat → Bool := fun _ => false

/-- Every webhook POST succeeds. -/
def respOkAll : Nat → Bool := fun _ => true

/-- Two download rows with well-formed download paths. -/
def row9a : Row := [("download_path", PValue.str "/tmp/a.dmg")]

/-- Second download row. -/
def row9b : Row := [("download_path", PValue.str "/tmp/b.dmg")]

/-- A report with two rows under the download result-kind. -/
def report9 : autopkgReport :=
  { Failures := [],
    SummaryResults :=
      [("url_downloader_summary_result",
        { DataRows := [row9a, row9b], Header := [], SummaryText := "" })] }

/-- C9: the claim says a failed notification delivery is dropped and the
notifier continues with the remaining rows and results — for a result with
two download rows, two POSTs are attempted even if the first returns
HTTP 500.  It is false on the code: after the first failed POST the
notifier logs and returns, so only one POST is attempted and everything
after it is abandoned. -/
theorem notifier_stops_after_failed_post :
    notifySlackRun respFail [report9] 0 =
      (["New download: a.dmg"], NotifyOutcome.stoppedEarly) := by
  rfl

/-- A download row without the "download_path" field. -/
def row10 : Row := [("pathname", PValue.str "/tmp/a.dmg")]

/-- A report whose download row lacks the "download_path" field. -/
def report10 : autopkgReport :=
  { Failures := [],
    SummaryResults :=
      [("url_downloader_summary_result",
        { DataRows := [row10], Header := [], SummaryText := "" })] }

/-- C10: the claim says a row whose "download_path" (or "name"/"version")
field is absent or not a string does not terminate the process.  It is
false on the code: the unchecked type assertion
`row["download_path"].(string)` panics on such a row, killing the process
before any POST is attempted. -/
theorem notifier_panics_on_missing_field :
    notifySlackRun respOkAll [report10] 0 = ([], NotifyOutcome.panicked) := by
  rfl

end Autopkgd
